import Mathlib

/-!
# Verification of the OTRS ticket-analysis pipeline

Shallow embedding of `analyze_tickets.py`: the column resolver, the free-text
duration parser, the daily new/closed aggregator, the open-ticket predicate
used by each aggregator, the empty-first-response analyzer, the age-bucket
aggregator, and the two-tier error policy of the run pipeline.

Cell values of the spreadsheet table are modelled by `Value`; the external
tabular library's date coercion (`pd.to_datetime(..., errors='coerce')`) is
modelled by `parseTimestamp` on an ISO subset of date strings — the pipeline
only depends on which strings coerce to null and on the calendar-date
projection, never on deeper parsing behaviour.
-/

namespace Tickets

/-- A timestamp: a calendar date (encoded `y*10000 + m*100 + d`, so that
`Nat` order is chronological order) and a time-of-day in minutes. -/
structure Timestamp where
  date : Nat
  time : Nat
  deriving DecidableEq, Repr

/-- A spreadsheet cell value: null (NaN/NaT/None), a free-text string, an
already-typed timestamp, or a number (used for the derived numeric columns). -/
inductive Value where
  | null
  | str (s : String)
  | date (t : Timestamp)
  | num (q : Rat)
  deriving DecidableEq, Repr

/-- `pd.isna` on a cell: true exactly on null. -/
def isna : Value → Bool
  | .null => true
  | _ => false

/-- Decimal value of an ASCII digit character. -/
def digitVal (c : Char) : Nat := c.toNat - 48

/-- Numeric value of a list of ASCII digit characters. -/
def natOfDigits (ds : List Char) : Nat :=
  ds.foldl (fun n c => n * 10 + digitVal c) 0

/-- Models the external library's best-effort date parsing
(`pd.to_datetime(..., errors='coerce')`) on an ISO subset:
`YYYY-MM-DD` and `YYYY-MM-DD HH:MM` parse, everything else coerces to null.
The pipeline only depends on the parse-or-null outcome and the date part. -/
def parseTimestamp (s : String) : Option Timestamp :=
  match s.toList with
  | [y1, y2, y3, y4, '-', m1, m2, '-', d1, d2] =>
    if [y1, y2, y3, y4, m1, m2, d1, d2].all Char.isDigit then
      some ⟨natOfDigits [y1, y2, y3, y4] * 10000 +
            natOfDigits [m1, m2] * 100 + natOfDigits [d1, d2], 0⟩
    else none
  | [y1, y2, y3, y4, '-', m1, m2, '-', d1, d2, ' ', h1, h2, ':', n1, n2] =>
    if [y1, y2, y3, y4, m1, m2, d1, d2, h1, h2, n1, n2].all Char.isDigit then
      some ⟨natOfDigits [y1, y2, y3, y4] * 10000 +
            natOfDigits [m1, m2] * 100 + natOfDigits [d1, d2],
            natOfDigits [h1, h2] * 60 + natOfDigits [n1, n2]⟩
    else none
  | _ => none

/-- `pd.to_datetime(col, errors='coerce')` on one cell: null stays null,
strings are best-effort parsed (unparseable becomes null), timestamps pass
through, numbers coerce to null in this model. -/
def toDatetime : Value → Value
  | .null => .null
  | .str s => match parseTimestamp s with
    | some t => .date t
    | none => .null
  | .date t => .date t
  | .num _ => .null

/-- The calendar-date projection `.dt.date` of a parsed cell. -/
def dateOf : Value → Option Nat
  | .date t => some t.date
  | _ => none

/-- A row of the table: an association list from column header to cell. -/
abbrev Row : Type := List (String × Value)

/-- Cell of a row at a column header (missing key reads as null; the pipeline
only reads headers it has checked or added, so the default never matters). -/
def getCol (r : Row) (c : String) : Value :=
  match List.find? (fun p => p.1 == c) r with
  | some p => p.2
  | none => Value.null

/-- An in-memory table: the header list and the rows. -/
structure DataFrame where
  headers : List String
  rows : List Row
  deriving DecidableEq

/-- `df[name] = f(row)`: appends a derived column. -/
def addColumn (df : DataFrame) (name : String) (f : Row → Value) : DataFrame :=
  ⟨df.headers ++ [name], df.rows.map (fun r => r ++ [(name, f r)])⟩

/-! ## Substring matching (Python's `in` on strings) -/

/-- Python's `str.lower()` as a character list (ASCII case mapping). -/
def lowerChars (s : String) : List Char :=
  s.toList.map Char.toLower

/-- `needle` is a prefix of `hay` (on character lists). -/
def prefixAt : List Char → List Char → Bool
  | [], _ => true
  | _ :: _, [] => false
  | a :: as, b :: bs => a == b && prefixAt as bs

/-- `needle` occurs somewhere in `hay` (on character lists). -/
def hasSub (needle : List Char) : List Char → Bool
  | [] => prefixAt needle []
  | c :: cs => prefixAt needle (c :: cs) || hasSub needle cs

/-- Python's substring test `needle in hay` (both already lowercased by the
callers that need case-insensitivity). -/
def strContains (hay needle : String) : Bool :=
  hasSub needle.toList hay.toList

/-- Case-insensitive substring test: `needle.lower() in hay.lower()`. -/
def containsCI (hay needle : String) : Bool :=
  hasSub (lowerChars needle) (lowerChars hay)

/-! ## The duration parser `parse_age_to_hours` -/

/-- Python `\s` on the ASCII range. -/
def isWs (c : Char) : Bool :=
  c == ' ' || c == '\t' || c == '\n' || c == '\r' || c == '\x0b' || c == '\x0c'

/-- Try to match the regex `(\d+)\s*u` at the start of `cs`, returning the
captured number.  Greedy matching of `\d+` and `\s*` is exact here because the
unit letters `d`/`h`/`m` are neither digits nor whitespace, so the regex
engine's backtracking can never produce a match the greedy scan misses. -/
def tryUnitAt (cs : List Char) (u : Char) : Option Nat :=
  let ds := cs.takeWhile Char.isDigit
  match ds with
  | [] => none
  | _ :: _ =>
    match (cs.drop ds.length).dropWhile isWs with
    | c :: _ => if c == u then some (natOfDigits ds) else none
    | [] => none

/-- `re.search(r'(\d+)\s*u', s)`: leftmost match of the unit pattern. -/
def searchUnit : List Char → Char → Option Nat
  | [], _ => none
  | c :: cs, u =>
    match tryUnitAt (c :: cs) u with
    | some n => some n
    | none => searchUnit cs u

/-- `parse_age_to_hours`: NaN (`none`) yields 0; otherwise lowercase the text,
extract the first `(\d+)\s*d`, `(\d+)\s*h`, `(\d+)\s*m` matches independently
(absent components count 0), and return `days*24 + hours + minutes/60`.
Hours are modelled as exact rationals. -/
def parse_age_to_hours (age : Option String) : Rat :=
  match age with
  | none => 0
  | some ageStr =>
    let s := lowerChars ageStr
    let days : Nat := (searchUnit s 'd').getD 0
    let hours : Nat := (searchUnit s 'h').getD 0
    let minutes : Nat := (searchUnit s 'm').getD 0
    (days : Rat) * 24 + (hours : Rat) + (minutes : Rat) / 60

/-- The `Age` cell as fed to `parse_age_to_hours` by the column apply: null is
NaN; strings pass through.  Timestamp and numeric cells stringify in Python to
text containing no digit run followed by a unit letter, so they parse to 0
exactly as the empty string does, which is how this model renders them. -/
def ageCellInput : Value → Option String
  | .null => none
  | .str s => some s
  | .date _ => some ""
  | .num _ => some ""

/-! ## Column resolver (`analyze_otrs_tickets`, lines 58-84) -/

/-- The alias list for the created-date field. -/
def createdAliases : List String :=
  ["Created", "CreateTime", "Create Time", "Date Created", "created",
   "creation_date"]

/-- The alias list for the closed-date field (also duplicated verbatim in
`prepare_data` as `possible_closed_names`). -/
def closedAliases : List String :=
  ["Closed", "CloseTime", "Close Time", "Date Closed", "closed", "close_date"]

/-- The alias list for the state field. -/
def stateAliases : List String :=
  ["State", "Status", "Ticket State", "state", "status"]

/-- The alias list for the ticket-number field. -/
def ticketNumberAliases : List String :=
  ["Ticket Number", "TicketNumber", "Number", "ticket_number", "id"]

/-- `possible_columns`: the fixed alias table of the resolver.  The source
dictionary has exactly these four logical fields. -/
def possible_columns : List (String × List String) :=
  [("created", createdAliases),
   ("closed", closedAliases),
   ("state", stateAliases),
   ("ticket_number", ticketNumberAliases)]

/-- `any(name.lower() in col.lower() for name in possible_names)`. -/
def headerMatches (aliases : List String) (col : String) : Bool :=
  aliases.any (fun name => hasSub (lowerChars name) (lowerChars col))

/-- The inner loop: first header (in original order) matching some alias. -/
def findColumn (headers : List String) (aliases : List String) : Option String :=
  headers.find? (headerMatches aliases)

/-- `actual_columns`: logical field to first matching header, for each of the
four fields of `possible_columns` that has a match. -/
def resolveColumns (headers : List String) : List (String × String) :=
  possible_columns.filterMap
    (fun p => (findColumn headers p.2).map (fun c => (p.1, c)))

/-- Modelled from the spec: the claim's seven-field resolver, for comparison
with the source's four-field `resolveColumns`.  The spec names created-date,
closed-date, state, ticket-number, first-response, priority and age as the
logical fields; for the three fields absent from the source's alias table the
natural alias (the field's own column name, matched case-insensitively as the
rest of the source does) is used. -/
def possible_columns_spec : List (String × List String) :=
  possible_columns ++
    [("first_response", ["FirstResponse"]),
     ("priority", ["Priority"]),
     ("age", ["Age"])]

/-- Modelled from the spec: resolver over the seven-field alias table. -/
def resolveColumnsSpec (headers : List String) : List (String × String) :=
  possible_columns_spec.filterMap
    (fun p => (findColumn headers p.2).map (fun c => (p.1, c)))

/-! ## Frequency counts (`pandas.Series.value_counts`) -/

/-- Distinct elements in first-encounter order (accumulating the values
already seen). -/
def uniqueFirstAux {α : Type} [DecidableEq α] (seen : List α) : List α → List α
  | [] => []
  | a :: as =>
    if a ∈ seen then uniqueFirstAux seen as
    else a :: uniqueFirstAux (a :: seen) as

/-- Distinct elements in first-encounter order. -/
def uniqueFirst {α : Type} [DecidableEq α] (l : List α) : List α :=
  uniqueFirstAux [] l

/-- Order on `(value, count)` pairs by descending count. -/
def countDesc {α : Type} (a b : α × Nat) : Prop := b.2 ≤ a.2

instance {α : Type} : DecidableRel (countDesc (α := α)) := fun a b =>
  inferInstanceAs (Decidable (b.2 ≤ a.2))

instance {α : Type} : IsTotal (α × Nat) countDesc :=
  ⟨fun a b => (Nat.le_total b.2 a.2).imp id id⟩

instance {α : Type} : IsTrans (α × Nat) countDesc :=
  ⟨fun _ _ _ h1 h2 => Nat.le_trans h2 h1⟩

/-- Models `Series.value_counts()`: the distinct values with their
multiplicities, sorted by descending count.  The underlying hash aggregation
yields first-encounter order, which the stable sort preserves among equal
counts. -/
def value_counts {α : Type} [DecidableEq α] (l : List α) : List (α × Nat) :=
  List.insertionSort countDesc ((uniqueFirst l).map (fun v => (v, l.count v)))

/-- Models `value_counts().sort_index()` on calendar dates: the distinct
dates ascending, each with its multiplicity. -/
def valueCountsByDate (dates : List Nat) : List (Nat × Nat) :=
  (List.insertionSort (· ≤ ·) dates.dedup).map (fun d => (d, dates.count d))

/-! ## `analyze_ticket_statistics` -/

/-- The parsed dates of a column: `pd.to_datetime(col, errors='coerce')`
followed by `.dt.date`, keeping only the non-null results (both `value_counts`
and the `notna` row filter in the source drop the nulls). -/
def parsedDates (df : DataFrame) (c : String) : List Nat :=
  df.rows.filterMap (fun r => dateOf (toDatetime (getCol r c)))

/-- The `stats` dictionary built by `analyze_ticket_statistics`. -/
structure Stats where
  daily_new : Option (List (Nat × Nat))
  daily_closed : Option (List (Nat × Nat))
  current_open_count : Option Nat
  state_counts : Option (List (Value × Nat))
  deriving DecidableEq

/-- `analyze_ticket_statistics`: daily new counts when the created column
resolved; daily closed counts when the closed column resolved and at least one
closure parsed (`if not closed_tickets.empty`); the current-open count (rows
whose closed value is null after date coercion) when the closed column
resolved; and the state distribution shown alongside it. -/
def analyze_ticket_statistics (df : DataFrame) (columns : List (String × String)) :
    Stats where
  daily_new := (columns.lookup "created").map
    (fun cc => valueCountsByDate (parsedDates df cc))
  daily_closed := (columns.lookup "closed").bind (fun cc =>
    let ds := parsedDates df cc
    if ds.isEmpty then none else some (valueCountsByDate ds))
  current_open_count := (columns.lookup "closed").map (fun cc =>
    (df.rows.filter (fun r => isna (toDatetime (getCol r cc)))).length)
  state_counts :=
    match columns.lookup "closed", columns.lookup "state" with
    | some _, some sc => some (value_counts (df.rows.map (fun r => getCol r sc)))
    | _, _ => none

/-- The printed daily section, following the source's `if`/`elif` chain. -/
inductive DailyReport where
  | combined (rows : List (Nat × Nat × Nat))
  | newOnly (rows : List (Nat × Nat))
  | closedOnly (rows : List (Nat × Nat))
  | nothing
  deriving DecidableEq

/-- The daily display: when both series exist, the sorted union of their
dates with per-side counts defaulting to 0 (`stats[...].get(date, 0)`);
otherwise whichever series exists alone; otherwise nothing. -/
def dailyReport (s : Stats) : DailyReport :=
  match s.daily_new, s.daily_closed with
  | some dn, some dc =>
    let all := List.insertionSort (· ≤ ·) ((dn.map Prod.fst ++ dc.map Prod.fst).dedup)
    .combined (all.map (fun d => (d, (dn.lookup d).getD 0, (dc.lookup d).getD 0)))
  | some dn, none => .newOnly dn
  | none, some dc => .closedOnly dc
  | none, none => .nothing

/-! ## `analyze_firstresponse_empty` -/

/-- `priority_order.get(label, 999)`: the fixed priority-rank table. -/
def rankOf (v : Value) : Nat :=
  if v = .str "1 very high" then 1
  else if v = .str "2 high" then 2
  else if v = .str "3 normal" then 3
  else 999

/-- Sort key order of the priority breakdown (`sorted(..., key=rank)`). -/
def rankLe (a b : Value × Nat) : Prop := rankOf a.1 ≤ rankOf b.1

instance : DecidableRel rankLe := fun a b =>
  inferInstanceAs (Decidable (rankOf a.1 ≤ rankOf b.1))

instance : IsTotal (Value × Nat) rankLe :=
  ⟨fun a b => (Nat.le_total (rankOf a.1) (rankOf b.1)).imp id id⟩

instance : IsTrans (Value × Nat) rankLe :=
  ⟨fun _ _ _ h1 h2 => Nat.le_trans h1 h2⟩

/-- The stable re-sort of the priority frequency table by rank. -/
def sortByRank (pc : List (Value × Nat)) : List (Value × Nat) :=
  List.insertionSort rankLe pc

/-- The empty-first-response membership test: the cell is NaN or the empty
string. -/
def emptyFR (fr : String) (r : Row) : Bool :=
  isna (getCol r fr) || (getCol r fr == Value.str "")

/-- The exclusion test: the `State` cell, as a string, contains (lowercased)
`closed` or `resolved`; non-string cells never match (`na=False`). -/
def stateClosedResolved (r : Row) : Bool :=
  match getCol r "State" with
  | .str s => hasSub "closed".toList (lowerChars s) ||
              hasSub "resolved".toList (lowerChars s)
  | _ => false

/-- The outcome of `analyze_firstresponse_empty`. -/
inductive FRResult where
  | colNotFound (headers : List String)
  | report (col : String) (beforeCount afterCount excludedCount : Nat)
      (stateFiltered : Bool) (nanCount emptyCount : Nat)
      (priorities : Option (List (Value × Nat)))
  deriving DecidableEq

/-- `empty_firstresponse`: the empty-first-response rows kept after the
closed/resolved exclusion (applied only when a `State` column exists). -/
def keptEmptyFR (df : DataFrame) (fr : String) : List Row :=
  if df.headers.contains "State" then
    (df.rows.filter (emptyFR fr)).filter (fun r => !(stateClosedResolved r))
  else df.rows.filter (emptyFR fr)

/-- `analyze_firstresponse_empty`: locate the first-response column by
case-insensitive substring search; count rows whose value is NaN or the empty
string; when a `State` column exists, drop the closed/resolved ones and report
before/after/excluded counts; print the whole-column NaN and empty-string
totals (`nan_empty.sum()`, `empty_strings.sum()`); and when a `Priority`
column exists, the rank-sorted priority distribution of the kept rows. -/
def analyze_firstresponse_empty (df : DataFrame) : FRResult :=
  match df.headers.find? (fun c => hasSub "firstresponse".toList (lowerChars c)) with
  | none => .colNotFound df.headers
  | some fr =>
    let allEmpty := df.rows.filter (emptyFR fr)
    let kept := keptEmptyFR df fr
    let nanCount := (df.rows.filter (fun r => isna (getCol r fr))).length
    let emptyCount := (df.rows.filter (fun r => getCol r fr == Value.str "")).length
    let priorities := if df.headers.contains "Priority" then
        some (sortByRank (value_counts (kept.map (fun r => getCol r "Priority"))))
      else none
    .report fr allEmpty.length kept.length (allEmpty.length - kept.length)
      (df.headers.contains "State") nanCount emptyCount priorities

/-! ## `analyze_open_tickets_by_priority` and `analyze_open_tickets_by_age` -/

/-- `analyze_open_tickets_by_priority`: `df[df[closed_column].isna()]` — the
raw closed cell, not the date-coerced one, selects the open rows; a missing
`closed_column` header raises an uncaught `KeyError`.  Returns the open rows
and, when a `Priority` column exists, their priority distribution. -/
def analyze_open_tickets_by_priority (df : DataFrame) (closed_column : String) :
    Except String (List Row × Option (List (Value × Nat))) :=
  if df.headers.contains closed_column then
    let ot := df.rows.filter (fun r => isna (getCol r closed_column))
    let pr := if df.headers.contains "Priority" then
        some (value_counts (ot.map (fun r => getCol r "Priority")))
      else none
    .ok (ot, pr)
  else .error ("KeyError: " ++ closed_column)

/-- The derived age of a row, read back from the `age_hours` column. -/
def ageHours (r : Row) : Rat :=
  match getCol r "age_hours" with
  | .num q => q
  | _ => 0

/-- The figures printed by `analyze_open_tickets_by_age`. -/
structure AgeReport where
  less24 : Nat
  between2448 : Nat
  between4872 : Nat
  over72 : Nat
  todayNew : Option Nat
  todayClosed : Option Nat
  deriving DecidableEq

/-- `analyze_open_tickets_by_age`: requires the `Age` and derived `age_hours`
columns (else the section reports "Age data not available"); restricts the
open rows to those with a non-null raw `Age`; counts the four buckets by
derived age-in-hours; and the all-rows created-today / closed-today
snapshot counters. -/
def analyze_open_tickets_by_age (df : DataFrame) (open_tickets : List Row)
    (today : Nat) : Option AgeReport :=
  if df.headers.contains "Age" && df.headers.contains "age_hours" then
    let owa := open_tickets.filter (fun r => !(isna (getCol r "Age")))
    some
      { less24 := (owa.filter (fun r => decide (ageHours r ≤ 24))).length
        between2448 :=
          (owa.filter (fun r => decide (24 < ageHours r ∧ ageHours r ≤ 48))).length
        between4872 :=
          (owa.filter (fun r => decide (48 < ageHours r ∧ ageHours r ≤ 72))).length
        over72 := (owa.filter (fun r => decide (72 < ageHours r))).length
        todayNew := if df.headers.contains "created_date" then
            some ((df.rows.filter
              (fun r => dateOf (getCol r "created_date") == some today)).length)
          else none
        todayClosed := if df.headers.contains "Closed" then
            some ((df.rows.filter
              (fun r => dateOf (toDatetime (getCol r "Closed")) == some today)).length)
          else none }
  else none

/-! ## The run pipeline: `prepare_data`, `analyze_otrs_tickets`,
`generate_output`, `__main__` -/

/-- What `analyze_otrs_tickets` hands back: the stats dictionary, or the raw
header dump when no logical column resolved. -/
inductive ResultKind where
  | stats (s : Stats)
  | rawdump (headers : List String)
  deriving DecidableEq

/-- `analyze_otrs_tickets` after a successful read: resolve columns; with an
empty map, dump the raw headers instead of running the analysis. -/
def analyze_otrs_tickets (df : DataFrame) : ResultKind :=
  match resolveColumns df.headers with
  | [] => .rawdump df.headers
  | cols => .stats (analyze_ticket_statistics df cols)

/-- `closed_column` as `prepare_data` picks it: the first header matching a
closed alias, falling back to the literal `State` without checking that a
`State` header exists. -/
def closedColumnOf (df0 : DataFrame) : String :=
  (findColumn df0.headers closedAliases).getD "State"

/-- The derived columns `prepare_data` adds: `age_hours` when an `Age` column
exists, `created_date` when a `Created` column exists. -/
def prepareFrame (df0 : DataFrame) : DataFrame :=
  let df1 := if df0.headers.contains "Age" then
      addColumn df0 "age_hours"
        (fun r => Value.num (parse_age_to_hours (ageCellInput (getCol r "Age"))))
    else df0
  if df1.headers.contains "Created" then
    addColumn df1 "created_date" (fun r => toDatetime (getCol r "Created"))
  else df1

/-- `prepare_data`: on a read failure the single `try/except` reports the
error; otherwise pick `closed_column`, derive the two computed columns, and
run `analyze_otrs_tickets`. -/
def prepare_data (load : Except String DataFrame) :
    Except String (DataFrame × String × ResultKind) :=
  match load with
  | .error e => .error e
  | .ok df0 => .ok (prepareFrame df0, closedColumnOf df0, analyze_otrs_tickets df0)

/-- The report `generate_output` writes: the summary block, the
empty-first-response section, the open-by-priority section (distribution and
open count), and the open-by-age section. -/
structure Report where
  summary : Option (Option Nat × Option Nat × Option Nat)
  firstresponse : FRResult
  openCount : Nat
  openByPriority : Option (List (Value × Nat))
  byAge : Option AgeReport
  deriving DecidableEq

/-- `generate_output`: the summary (today's new count when `created_date`
exists, the total closed count when available, the current-open count when
available — only when the result is the stats dictionary), then the three
analyzer sections in order.  An exception inside a section propagates: there
is no try/except here. -/
def generate_output (df : DataFrame) (closed_column : String)
    (result : ResultKind) (today : Nat) : Except String Report :=
  let summary := match result with
    | .stats s =>
      let todayNew := if df.headers.contains "created_date" then
          some ((df.rows.filter
            (fun r => dateOf (getCol r "created_date") == some today)).length)
        else none
      let totalClosed := s.daily_closed.map (fun dc => (dc.map Prod.snd).sum)
      some (todayNew, totalClosed, s.current_open_count)
    | .rawdump _ => none
  let fr := analyze_firstresponse_empty df
  match analyze_open_tickets_by_priority df closed_column with
  | .error e => .error e
  | .ok (ot, pr) =>
    .ok ⟨summary, fr, ot.length, pr, analyze_open_tickets_by_age df ot today⟩

/-- Outcome of one run of the script. -/
inductive RunResult where
  | readError (msg : String)
  | completed (r : Report)
  | crashed (msg : String)
  deriving DecidableEq

/-- The `__main__` workflow: prepare the data (a read failure is caught and
reported, aborting the run), then generate the output; an exception escaping
`generate_output` is uncaught and crashes the run. -/
def runAnalysis (load : Except String DataFrame) (today : Nat) : RunResult :=
  match prepare_data load with
  | .error e => .readError e
  | .ok (df, cc, res) =>
    match generate_output df cc res today with
    | .error e => .crashed e
    | .ok r => .completed r

instance {ε α : Type} [DecidableEq ε] [DecidableEq α] :
    DecidableEq (Except ε α) := fun a b =>
  match a, b with
  | .error e1, .error e2 =>
    if h : e1 = e2 then .isTrue (congrArg Except.error h)
    else .isFalse (fun hc => h (Except.error.inj hc))
  | .ok a1, .ok a2 =>
    if h : a1 = a2 then .isTrue (congrArg Except.ok h)
    else .isFalse (fun hc => h (Except.ok.inj hc))
  | .error _, .ok _ => .isFalse (fun hc => Except.noConfusion hc)
  | .ok _, .error _ => .isFalse (fun hc => Except.noConfusion hc)

/-! ## Concrete example tables used by the claim theorems -/

/-- One row whose closed cell is a non-null string that no date parser
accepts. -/
def dfUnparseableClosed : DataFrame :=
  ⟨["Closed"], [[("Closed", Value.str "notadate")]]⟩

/-- A table with neither a closed-alias header nor a `State` header. -/
def dfNoStateColumn : DataFrame := ⟨["Foo"], [[("Foo", Value.null)]]⟩

/-- The spec's daily example: creations on 2025-01-01 (twice, with times of
day) and 2025-01-02, one closure on 2025-01-01. -/
def dfDailyExample : DataFrame :=
  ⟨["Created", "Closed"],
   [[("Created", Value.str "2025-01-01 08:00"), ("Closed", Value.str "2025-01-01 09:30")],
    [("Created", Value.str "2025-01-01 10:00"), ("Closed", Value.null)],
    [("Created", Value.str "2025-01-02"), ("Closed", Value.null)]]⟩

/-- Created and closed columns both resolve but the sole closure value is
unparseable. -/
def dfDailyUnparseable : DataFrame :=
  ⟨["Created", "Closed"],
   [[("Created", Value.str "2025-01-01"), ("Closed", Value.str "garbage")]]⟩

/-- One ticket with no first response whose state is `closed`. -/
def dfFRClosedNaN : DataFrame :=
  ⟨["FirstResponse", "State"],
   [[("FirstResponse", Value.null), ("State", Value.str "closed")]]⟩

/-- Empty-first-response tickets with only unrecognized priorities, the rarer
one encountered first. -/
def dfPrioUnrecognized : DataFrame :=
  ⟨["FirstResponse", "Priority"],
   [[("FirstResponse", Value.null), ("Priority", Value.str "zebra")],
    [("FirstResponse", Value.null), ("Priority", Value.str "apple")],
    [("FirstResponse", Value.null), ("Priority", Value.str "apple")]]⟩

/-- Empty-first-response tickets mixing recognized and unrecognized
priorities, in scrambled input order. -/
def dfPrioMixed : DataFrame :=
  ⟨["FirstResponse", "Priority"],
   [[("FirstResponse", Value.null), ("Priority", Value.str "weird")],
    [("FirstResponse", Value.null), ("Priority", Value.str "3 normal")],
    [("FirstResponse", Value.null), ("Priority", Value.str "3 normal")],
    [("FirstResponse", Value.null), ("Priority", Value.str "1 very high")]]⟩

/-- A frame carrying the `Age` and derived `age_hours` columns. -/
def dfAgeFrame : DataFrame := ⟨["Age", "age_hours"], []⟩

/-- An open ticket thirty hours old. -/
def rowAge30 : Row := [("Age", Value.str "30 h"), ("age_hours", Value.num 30)]

/-! ## General lemmas -/

/-- The four age buckets split any list: the bucket counts sum to the length. -/
theorem bucket_counts_sum {α : Type} (f : α → Rat) (l : List α) :
    (l.filter (fun r => decide (f r ≤ 24))).length
      + (l.filter (fun r => decide (24 < f r ∧ f r ≤ 48))).length
      + (l.filter (fun r => decide (48 < f r ∧ f r ≤ 72))).length
      + (l.filter (fun r => decide (72 < f r))).length = l.length := by
  induction l with
  | nil => simp
  | cons a l ih =>
    simp only [List.filter_cons, decide_eq_true_eq]
    rcases le_or_lt (f a) 24 with h1 | h1
    · rw [if_pos h1, if_neg (fun hc => absurd (lt_of_lt_of_le hc.1 h1) (lt_irrefl _)),
        if_neg (fun hc => absurd (lt_of_lt_of_le hc.1 (h1.trans (by norm_num))) (lt_irrefl _)),
        if_neg (fun hc => absurd (lt_of_lt_of_le hc (h1.trans (by norm_num))) (lt_irrefl _))]
      simp only [List.length_cons]
      omega
    · rcases le_or_lt (f a) 48 with h2 | h2
      · rw [if_neg (not_le.mpr h1), if_pos ⟨h1, h2⟩,
          if_neg (fun hc => absurd (lt_of_lt_of_le hc.1 (h2.trans (by norm_num))) (lt_irrefl _)),
          if_neg (fun hc => absurd (lt_of_lt_of_le hc (h2.trans (by norm_num))) (lt_irrefl _))]
        simp only [List.length_cons]
        omega
      · rcases le_or_lt (f a) 72 with h3 | h3
        · rw [if_neg (not_le.mpr h1), if_neg (fun hc => absurd h2 (not_lt.mpr hc.2)),
            if_pos ⟨h2, h3⟩, if_neg (fun hc => absurd h3 (not_le.mpr hc))]
          simp only [List.length_cons]
          omega
        · rw [if_neg (not_le.mpr h1), if_neg (fun hc => absurd h2 (not_lt.mpr hc.2)),
            if_neg (fun hc => absurd h3 (not_lt.mpr hc.2)), if_pos h3]
          simp only [List.length_cons]
          omega

/-- Looking up a key in a keyed map built over nodup keys. -/
theorem lookup_map_keys (keys : List Nat) (f : Nat → Nat) (d : Nat)
    (hk : keys.Nodup) :
    ((keys.map (fun k => (k, f k))).lookup d).getD 0
      = if d ∈ keys then f d else 0 := by
  induction keys with
  | nil => simp [List.lookup]
  | cons k ks ih =>
    rcases List.nodup_cons.mp hk with ⟨hknot, hks⟩
    by_cases hdk : d = k
    · subst hdk
      simp [List.lookup]
    · have : (d == k) = false := beq_false_of_ne hdk
      simp only [List.map_cons, List.lookup, this, List.mem_cons]
      rw [ih hks]
      simp [hdk]

/-- Looking a date up in the sorted frequency table recovers its
multiplicity (0 when absent). -/
theorem lookup_valueCountsByDate (nd : List Nat) (d : Nat) :
    ((valueCountsByDate nd).lookup d).getD 0 = nd.count d := by
  unfold valueCountsByDate
  rw [lookup_map_keys _ _ _
    ((List.perm_insertionSort (· ≤ ·) nd.dedup).symm.nodup (List.nodup_dedup nd))]
  by_cases hd : d ∈ nd
  · rw [if_pos]
    rw [List.mem_insertionSort, List.mem_dedup]
    exact hd
  · rw [if_neg, Eq.comm, List.count_eq_zero]
    · exact hd
    · rw [List.mem_insertionSort, List.mem_dedup]
      exact hd

/-- The keys of the sorted frequency table are exactly the dates occurring. -/
theorem mem_keys_valueCountsByDate (nd : List Nat) (d : Nat) :
    d ∈ (valueCountsByDate nd).map Prod.fst ↔ d ∈ nd := by
  unfold valueCountsByDate
  rw [List.map_map]
  have : (Prod.fst ∘ fun d => (d, nd.count d)) = id := rfl
  rw [this, List.map_id, List.mem_insertionSort, List.mem_dedup]

/-- The keys of the sorted frequency table are sorted ascending. -/
theorem sorted_keys_valueCountsByDate (nd : List Nat) :
    ((valueCountsByDate nd).map Prod.fst).Sorted (· ≤ ·) := by
  unfold valueCountsByDate
  rw [List.map_map]
  have h : (Prod.fst ∘ fun d => (d, nd.count d)) = id := rfl
  rw [h, List.map_id]
  exact List.sorted_insertionSort _ _

/-- `tryUnitAt` on the empty text fails. -/
theorem tryUnitAt_nil (u : Char) : tryUnitAt [] u = none := rfl

/-- `searchUnit` fails exactly when the unit pattern matches at no position. -/
theorem searchUnit_eq_none_iff (cs : List Char) (u : Char) :
    searchUnit cs u = none ↔ ∀ i, tryUnitAt (cs.drop i) u = none := by
  induction cs with
  | nil =>
    simp only [searchUnit, true_iff]
    intro i
    rw [List.drop_nil]
    exact tryUnitAt_nil u
  | cons c cs ih =>
    cases h0 : tryUnitAt (c :: cs) u with
    | some m =>
      simp only [searchUnit, h0]
      constructor
      · intro h
        cases h
      · intro h
        have := h 0
        rw [List.drop_zero, h0] at this
        cases this
    | none =>
      simp only [searchUnit, h0]
      rw [ih]
      constructor
      · intro h i
        cases i with
        | zero => rw [List.drop_zero]; exact h0
        | succ j => exact h j
      · intro h j
        exact h (j + 1)

/-- `searchUnit` succeeds exactly at the leftmost matching position, with the
number captured there: the `re.search` contract. -/
theorem searchUnit_eq_some_iff (cs : List Char) (u : Char) (n : Nat) :
    searchUnit cs u = some n ↔
      ∃ i, tryUnitAt (cs.drop i) u = some n ∧
        ∀ j < i, tryUnitAt (cs.drop j) u = none := by
  induction cs with
  | nil =>
    constructor
    · intro h
      cases h
    · rintro ⟨i, hi, _⟩
      rw [List.drop_nil, tryUnitAt_nil] at hi
      cases hi
  | cons c cs ih =>
    cases h0 : tryUnitAt (c :: cs) u with
    | some m =>
      simp only [searchUnit, h0]
      constructor
      · intro h
        refine ⟨0, ?_, fun j hj => absurd hj (Nat.not_lt_zero j)⟩
        rw [List.drop_zero, h0]
        exact h
      · rintro ⟨i, hi, hall⟩
        cases i with
        | zero =>
          rw [List.drop_zero, h0] at hi
          exact hi
        | succ j =>
          have := hall 0 (Nat.succ_pos j)
          rw [List.drop_zero, h0] at this
          cases this
    | none =>
      simp only [searchUnit, h0]
      rw [ih]
      constructor
      · rintro ⟨i, hi, hall⟩
        refine ⟨i + 1, hi, fun j hj => ?_⟩
        cases j with
        | zero => rw [List.drop_zero]; exact h0
        | succ k => exact hall k (Nat.lt_of_succ_lt_succ hj)
      · rintro ⟨i, hi, hall⟩
        cases i with
        | zero =>
          rw [List.drop_zero, h0] at hi
          cases hi
        | succ j =>
          exact ⟨j, hi, fun k hk => hall (k + 1) (Nat.succ_lt_succ hk)⟩

/-- The unrecognized-priority test, as a Bool predicate on table entries. -/
def is999 (p : Value × Nat) : Bool := decide (rankOf p.1 = 999)

/-- Every rank is at most the unrecognized rank 999. -/
theorem rankOf_le_999 (v : Value) : rankOf v ≤ 999 := by
  unfold rankOf
  split_ifs <;> omega

/-- Inserting into the rank order keeps the unrecognized sublist intact:
a recognized entry drops out of the sublist, an unrecognized entry (having
the maximal key) lands in front of all unrecognized entries already there. -/
theorem filter999_orderedInsert (a : Value × Nat) (l : List (Value × Nat)) :
    (List.orderedInsert rankLe a l).filter is999
      = if rankOf a.1 = 999 then a :: l.filter is999 else l.filter is999 := by
  induction l with
  | nil =>
    by_cases h : rankOf a.1 = 999 <;>
      simp [List.orderedInsert, List.filter, is999, h]
  | cons b l ih =>
    by_cases hr : rankLe a b
    · rw [List.orderedInsert, if_pos hr]
      by_cases ha : rankOf a.1 = 999
      · have hb : rankOf b.1 = 999 :=
          Nat.le_antisymm (rankOf_le_999 b.1) (ha ▸ hr)
        simp [List.filter_cons, is999, ha, hb]
      · simp [List.filter_cons, is999, ha]
    · rw [List.orderedInsert, if_neg hr]
      have hb : rankOf b.1 ≠ 999 := by
        intro hb
        exact hr (le_trans (rankOf_le_999 a.1) (le_of_eq hb.symm))
      by_cases ha : rankOf a.1 = 999 <;>
        simp [List.filter_cons, is999, ha, hb, ih]

/-- The stable rank sort preserves the relative order of the unrecognized
labels: they come out exactly as the frequency table listed them. -/
theorem filter999_sortByRank (l : List (Value × Nat)) :
    (sortByRank l).filter is999 = l.filter is999 := by
  induction l with
  | nil => rfl
  | cons a l ih =>
    rw [sortByRank, List.insertionSort, filter999_orderedInsert]
    rw [sortByRank] at ih
    by_cases h : rankOf a.1 = 999 <;>
      simp [List.filter_cons, is999, h, ih]

/-- The resolver's closed entry is exactly the first header matching a closed
alias — the same header `prepare_data` selects. -/
theorem lookup_closed_resolveColumns (headers : List String) :
    (resolveColumns headers).lookup "closed" = findColumn headers closedAliases := by
  unfold resolveColumns possible_columns
  cases h1 : findColumn headers createdAliases <;>
    cases h2 : findColumn headers closedAliases <;>
      cases h3 : findColumn headers stateAliases <;>
        cases h4 : findColumn headers ticketNumberAliases <;>
          simp [List.filterMap_cons, h1, h2, h3, h4, List.lookup]

/-- A disjoint union of Bool predicates splits a filter count. -/
theorem length_filter_or_disjoint {α : Type} (l : List α) (p q : α → Bool)
    (h : ∀ x ∈ l, ¬(p x = true ∧ q x = true)) :
    (l.filter (fun x => p x || q x)).length
      = (l.filter p).length + (l.filter q).length := by
  induction l with
  | nil => simp
  | cons a l ih =>
    have ha := h a (List.mem_cons_self a l)
    have ih := ih (fun x hx => h x (List.mem_cons_of_mem a hx))
    cases hp : p a with
    | true =>
      cases hq : q a with
      | true => exact absurd ⟨hp, hq⟩ ha
      | false =>
        simp [List.filter_cons, hp, hq, ih]
        omega
    | false =>
      cases hq : q a with
      | true =>
        simp [List.filter_cons, hp, hq, ih]
        omega
      | false =>
        simp [List.filter_cons, hp, hq, ih]

/-- Under the condition of the amended error-policy claim, the column
`prepare_data` settles on is a real header of the loaded table. -/
theorem closed_column_mem (df0 : DataFrame)
    (h : (findColumn df0.headers closedAliases).isSome = true ∨
      df0.headers.contains "State" = true) :
    closedColumnOf df0 ∈ df0.headers := by
  unfold closedColumnOf
  cases hf : findColumn df0.headers closedAliases with
  | some c => exact List.mem_of_find?_eq_some hf
  | none =>
    rcases h with h | h
    · rw [hf] at h
      cases h
    · simpa [List.contains, List.elem_iff] using h

/-- Adding the derived columns keeps every original header. -/
theorem mem_headers_prepareFrame (df0 : DataFrame) (s : String)
    (h : s ∈ df0.headers) : s ∈ (prepareFrame df0).headers := by
  unfold prepareFrame
  dsimp only []
  split <;> split <;>
    simp_all [addColumn, List.mem_append]

/-- `generate_output` completes whenever the closed column exists: the only
statement in it that can raise is the open-ticket row selection. -/
theorem generate_output_ok (df : DataFrame) (cc : String) (res : ResultKind)
    (today : Nat) (h : df.headers.contains cc = true) :
    ∃ r, generate_output df cc res today = .ok r := by
  unfold generate_output analyze_open_tickets_by_priority
  rw [if_pos h]
  exact ⟨_, rfl⟩

/-- Adding derived columns cannot introduce an `Age` header. -/
theorem prepareFrame_contains_age_false (df : DataFrame)
    (h : df.headers.contains "Age" = false) :
    (prepareFrame df).headers.contains "Age" = false := by
  have hmem : "Age" ∉ df.headers := by
    intro hm
    rw [(by simpa [List.contains, List.elem_iff] using hm :
      df.headers.contains "Age" = true)] at h
    cases h
  unfold prepareFrame
  rw [h]
  simp only [Bool.false_eq_true, if_false]
  split
  · simp only [addColumn]
    have : "Age" ∉ df.headers ++ ["created_date"] := by
      simp [List.mem_append, hmem]
    simpa [List.contains, List.elem_iff] using this
  · simpa [List.contains, List.elem_iff] using hmem

/-! ## The claims -/

/-- **C4.** `parse_age_to_hours` is total: for every input — any string
(including empty, malformed, or unit-free text), None, or NaN — it returns a
non-negative number and never raises (in this embedding: it is a total
function into the rationals whose value is always at least 0). -/
theorem C4_parse_age_to_hours_total_nonneg (a : Option String) :
    0 ≤ parse_age_to_hours a := by
  cases a with
  | none => simp [parse_age_to_hours]
  | some s =>
    simp only [parse_age_to_hours]
    have hd : (0 : Rat) ≤ ((searchUnit (lowerChars s) 'd').getD 0 : Nat) :=
      Nat.cast_nonneg _
    have hh : (0 : Rat) ≤ ((searchUnit (lowerChars s) 'h').getD 0 : Nat) :=
      Nat.cast_nonneg _
    have hm : (0 : Rat) ≤ ((searchUnit (lowerChars s) 'm').getD 0 : Nat) :=
      Nat.cast_nonneg _
    have h60 : (0 : Rat) ≤ 60 := by norm_num
    exact add_nonneg (add_nonneg (mul_nonneg hd (by norm_num)) hh)
      (div_nonneg hm h60)

/-- **C5.** For every input string, `parse_age_to_hours` returns
`days*24 + hours + minutes/60` where each component is captured by the first
(leftmost) match of its unit pattern — case-insensitive, flexible whitespace,
components in any order, later occurrences of a unit ignored, missing
components 0 — and the spec's examples evaluate as stated:
`"2 h 10 m"` to `2 + 10/60`, `"1 d 12 h"` to `36`, `"3 d"` to `72`, and the
empty string or null to `0`. -/
theorem C5_parse_age_first_match_formula :
    parse_age_to_hours (some "2 h 10 m") = 2 + 10 / 60
  ∧ parse_age_to_hours (some "1 d 12 h") = 36
  ∧ parse_age_to_hours (some "3 d") = 72
  ∧ parse_age_to_hours (some "") = 0
  ∧ parse_age_to_hours none = 0
  ∧ parse_age_to_hours (some "1 h 2 h") = 1
  ∧ parse_age_to_hours (some "10 M 2 H") = 2 + 10 / 60
  ∧ (∀ s : String,
      parse_age_to_hours (some s)
        = (((searchUnit (lowerChars s) 'd').getD 0 : Nat) : Rat) * 24
          + (((searchUnit (lowerChars s) 'h').getD 0 : Nat) : Rat)
          + (((searchUnit (lowerChars s) 'm').getD 0 : Nat) : Rat) / 60)
  ∧ (∀ (cs : List Char) (u : Char) (n : Nat),
      searchUnit cs u = some n ↔
        ∃ i, tryUnitAt (cs.drop i) u = some n ∧
          ∀ j < i, tryUnitAt (cs.drop j) u = none)
  ∧ (∀ (cs : List Char) (u : Char),
      searchUnit cs u = none ↔ ∀ i, tryUnitAt (cs.drop i) u = none) := by
  refine ⟨?_, ?_, ?_, ?_, ?_, ?_, ?_, fun s => rfl,
    fun cs u n => searchUnit_eq_some_iff cs u n,
    fun cs u => searchUnit_eq_none_iff cs u⟩
  · have hd : searchUnit (lowerChars "2 h 10 m") 'd' = none := by decide
    have hh : searchUnit (lowerChars "2 h 10 m") 'h' = some 2 := by decide
    have hm : searchUnit (lowerChars "2 h 10 m") 'm' = some 10 := by decide
    simp only [parse_age_to_hours, hd, hh, hm, Option.getD]
    norm_num
  · have hd : searchUnit (lowerChars "1 d 12 h") 'd' = some 1 := by decide
    have hh : searchUnit (lowerChars "1 d 12 h") 'h' = some 12 := by decide
    have hm : searchUnit (lowerChars "1 d 12 h") 'm' = none := by decide
    simp only [parse_age_to_hours, hd, hh, hm, Option.getD]
    norm_num
  · have hd : searchUnit (lowerChars "3 d") 'd' = some 3 := by decide
    have hh : searchUnit (lowerChars "3 d") 'h' = none := by decide
    have hm : searchUnit (lowerChars "3 d") 'm' = none := by decide
    simp only [parse_age_to_hours, hd, hh, hm, Option.getD]
    norm_num
  · have hd : searchUnit (lowerChars "") 'd' = none := by decide
    have hh : searchUnit (lowerChars "") 'h' = none := by decide
    have hm : searchUnit (lowerChars "") 'm' = none := by decide
    simp only [parse_age_to_hours, hd, hh, hm, Option.getD]
    norm_num
  · simp [parse_age_to_hours]
  · have hd : searchUnit (lowerChars "1 h 2 h") 'd' = none := by decide
    have hh : searchUnit (lowerChars "1 h 2 h") 'h' = some 1 := by decide
    have hm : searchUnit (lowerChars "1 h 2 h") 'm' = none := by decide
    simp only [parse_age_to_hours, hd, hh, hm, Option.getD]
    norm_num
  · have hd : searchUnit (lowerChars "10 M 2 H") 'd' = none := by decide
    have hh : searchUnit (lowerChars "10 M 2 H") 'h' = some 2 := by decide
    have hm : searchUnit (lowerChars "10 M 2 H") 'm' = some 10 := by decide
    simp only [parse_age_to_hours, hd, hh, hm, Option.getD]
    norm_num

/-- **C10.** The unit letters match as bare prefixes anywhere in the
lowercased input, so non-duration text can parse to a nonzero value:
`"2 months"` is read as 2 minutes (`2/60` hours) because `2 m` matches inside
`months`, and `"3 days 4 hours"` gives `76` because `3 d` and `4 h` match
inside `days` and `hours`. -/
theorem C10_units_match_inside_words :
    parse_age_to_hours (some "2 months") = 2 / 60
  ∧ parse_age_to_hours (some "2 months") ≠ 0
  ∧ parse_age_to_hours (some "3 days 4 hours") = 76
  ∧ searchUnit (lowerChars "2 months") 'm' = some 2
  ∧ searchUnit (lowerChars "2 months") 'd' = none
  ∧ searchUnit (lowerChars "2 months") 'h' = none
  ∧ searchUnit (lowerChars "3 days 4 hours") 'd' = some 3
  ∧ searchUnit (lowerChars "3 days 4 hours") 'h' = some 4
  ∧ searchUnit (lowerChars "3 days 4 hours") 'm' = none := by
  have h2m : parse_age_to_hours (some "2 months") = 2 / 60 := by
    have hd : searchUnit (lowerChars "2 months") 'd' = none := by decide
    have hh : searchUnit (lowerChars "2 months") 'h' = none := by decide
    have hm : searchUnit (lowerChars "2 months") 'm' = some 2 := by decide
    simp only [parse_age_to_hours, hd, hh, hm, Option.getD]
    norm_num
  refine ⟨h2m, ?_, ?_, by decide, by decide, by decide, by decide, by decide,
    by decide⟩
  · rw [h2m]
    norm_num
  · have hd : searchUnit (lowerChars "3 days 4 hours") 'd' = some 3 := by decide
    have hh : searchUnit (lowerChars "3 days 4 hours") 'h' = some 4 := by decide
    have hm : searchUnit (lowerChars "3 days 4 hours") 'm' = none := by decide
    simp only [parse_age_to_hours, hd, hh, hm, Option.getD]
    norm_num

/-- **C6.** Whenever the age-bucket aggregator runs, it partitions the open
tickets with a non-null raw `Age` exactly once: the four bucket counts sum to
the number of such tickets, and each such ticket satisfies exactly one of the
four bucket conditions `age ≤ 24`, `24 < age ≤ 48`, `48 < age ≤ 72`,
`72 < age` (pairwise disjoint, collectively covering). -/
theorem C6_age_bucket_partition (df : DataFrame) (ot : List Row) (today : Nat)
    (rep : AgeReport)
    (h : analyze_open_tickets_by_age df ot today = some rep) :
    rep.less24 + rep.between2448 + rep.between4872 + rep.over72
      = (ot.filter (fun r => !(isna (getCol r "Age")))).length
  ∧ ∀ r ∈ ot.filter (fun r => !(isna (getCol r "Age"))),
      (ageHours r ≤ 24 ∨ (24 < ageHours r ∧ ageHours r ≤ 48)
        ∨ (48 < ageHours r ∧ ageHours r ≤ 72) ∨ 72 < ageHours r)
      ∧ ¬(ageHours r ≤ 24 ∧ (24 < ageHours r ∧ ageHours r ≤ 48))
      ∧ ¬(ageHours r ≤ 24 ∧ (48 < ageHours r ∧ ageHours r ≤ 72))
      ∧ ¬(ageHours r ≤ 24 ∧ 72 < ageHours r)
      ∧ ¬((24 < ageHours r ∧ ageHours r ≤ 48) ∧ (48 < ageHours r ∧ ageHours r ≤ 72))
      ∧ ¬((24 < ageHours r ∧ ageHours r ≤ 48) ∧ 72 < ageHours r)
      ∧ ¬((48 < ageHours r ∧ ageHours r ≤ 72) ∧ 72 < ageHours r) := by
  constructor
  · unfold analyze_open_tickets_by_age at h
    by_cases hc : (df.headers.contains "Age" && df.headers.contains "age_hours") = true
    · rw [if_pos hc] at h
      injection h with h
      subst h
      exact bucket_counts_sum ageHours _
    · rw [if_neg hc] at h
      cases h
  · intro r _
    refine ⟨?_, ?_, ?_, ?_, ?_, ?_, ?_⟩
    · rcases le_or_lt (ageHours r) 24 with h1 | h1
      · exact Or.inl h1
      · rcases le_or_lt (ageHours r) 48 with h2 | h2
        · exact Or.inr (Or.inl ⟨h1, h2⟩)
        · rcases le_or_lt (ageHours r) 72 with h3 | h3
          · exact Or.inr (Or.inr (Or.inl ⟨h2, h3⟩))
          · exact Or.inr (Or.inr (Or.inr h3))
    · rintro ⟨h1, h2, _⟩
      exact absurd h2 (not_lt.mpr h1)
    · rintro ⟨h1, h2, _⟩
      linarith
    · rintro ⟨h1, h2⟩
      linarith
    · rintro ⟨⟨_, h1⟩, h2, _⟩
      linarith
    · rintro ⟨⟨_, h1⟩, h2⟩
      linarith
    · rintro ⟨⟨_, h1⟩, h2⟩
      linarith

/-- Witness for C6: a thirty-hour-old open ticket lands in the second bucket
alone, and the counts add up. -/
theorem C6_age_bucket_partition_witness :
    1 = (([rowAge30] : List Row).filter (fun r => !(isna (getCol r "Age")))).length :=
  (C6_age_bucket_partition dfAgeFrame [rowAge30] 0 ⟨0, 1, 0, 0, none, none⟩
    (by
      unfold analyze_open_tickets_by_age
      rw [if_pos (by decide)]
      have h30 : ageHours rowAge30 = 30 := by decide
      have hA : (List.filter (fun r => !(isna (getCol r "Age"))) [rowAge30])
          = [rowAge30] := by decide
      rw [hA]
      simp only [List.filter, h30, decide_eq_true_eq]
      norm_num
      constructor <;> intro hmem <;> revert hmem <;> decide)).1

/-- **C3 (amended).** The column resolver maps each of the FOUR logical
fields of its alias table — created, closed, state, ticket-number (not seven:
first-response, priority and age are located by separate mechanisms in other
functions) — to the first header, scanning headers in their original order,
whose lowercase form contains as a substring the lowercase form of some alias
of the field; and the raw header dump replaces the analysis exactly when zero
fields resolve. -/
theorem C3_amended_resolver_four_fields :
    possible_columns.map Prod.fst = ["created", "closed", "state", "ticket_number"]
  ∧ (∀ (headers : List String) (k c : String),
      (k, c) ∈ resolveColumns headers ↔
        ∃ al, (k, al) ∈ possible_columns ∧ findColumn headers al = some c)
  ∧ (∀ (headers al : List String) (c : String), findColumn headers al = some c →
      headerMatches al c = true ∧
        ∃ pre post, headers = pre ++ c :: post ∧
          ∀ b ∈ pre, headerMatches al b = false)
  ∧ (∀ df : DataFrame,
      analyze_otrs_tickets df = .rawdump df.headers ↔
        resolveColumns df.headers = []) := by
  refine ⟨by decide, ?_, ?_, ?_⟩
  · intro headers k c
    simp only [resolveColumns, List.mem_filterMap, Option.map_eq_some']
    constructor
    · rintro ⟨⟨k', al⟩, hmem, c', hfind, heq⟩
      rw [Prod.mk.injEq] at heq
      obtain ⟨hk, hc⟩ := heq
      subst hk
      subst hc
      exact ⟨al, hmem, hfind⟩
    · rintro ⟨al, hmem, hfind⟩
      exact ⟨(k, al), hmem, c, hfind, rfl⟩
  · intro headers al c h
    rw [findColumn, List.find?_eq_some] at h
    obtain ⟨hp, as, bs, heq, hall⟩ := h
    refine ⟨hp, as, bs, heq, fun b hb => ?_⟩
    simpa using hall b hb
  · intro df
    cases hr : resolveColumns df.headers <;>
      simp [analyze_otrs_tickets, hr]

/-- Counterexample for C3 as stated: the header list `["Priority"]` matches
the priority field's natural alias, yet the source resolver produces the
empty map and the analysis is replaced by the raw header dump — the claim's
seven-field resolver would map `priority` to `Priority`. -/
theorem C3_counterexample_priority_header :
    resolveColumns ["Priority"] = []
  ∧ resolveColumnsSpec ["Priority"] = [("priority", "Priority")]
  ∧ analyze_otrs_tickets ⟨["Priority"], []⟩ = .rawdump ["Priority"]
  ∧ ([] : List (String × String)) ≠ [("priority", "Priority")] := by decide

/-- **C1 (amended).** When the closed column resolves: `prepare_data` settles
on the same header the resolver found; the open set used by
`analyze_open_tickets_by_priority` — and handed unchanged to
`analyze_open_tickets_by_age` by `generate_output` — is the rows whose RAW
closed cell is null, while the `Current Open Tickets` count of
`analyze_ticket_statistics` counts the rows whose closed cell is null AFTER
best-effort date parsing; the two predicates (and hence all three open sets)
agree exactly on tables in which every non-null closed value parses as a
date.  (The claim as stated — one shared predicate on every table — fails on
unparseable closed strings, see the counterexample.) -/
theorem C1_amended_open_predicates (df : DataFrame) (cc : String)
    (hres : (resolveColumns df.headers).lookup "closed" = some cc) :
    closedColumnOf df = cc
  ∧ (∀ ot pr, analyze_open_tickets_by_priority df cc = .ok (ot, pr) →
      ot = df.rows.filter (fun r => isna (getCol r cc)))
  ∧ (analyze_ticket_statistics df (resolveColumns df.headers)).current_open_count
      = some ((df.rows.filter (fun r => isna (toDatetime (getCol r cc)))).length)
  ∧ (∀ res today rep, generate_output df cc res today = .ok rep →
      rep.byAge = analyze_open_tickets_by_age df
        (df.rows.filter (fun r => isna (getCol r cc))) today)
  ∧ ((∀ r ∈ df.rows, getCol r cc = Value.null ∨
        ∃ t, toDatetime (getCol r cc) = Value.date t) →
      (analyze_ticket_statistics df (resolveColumns df.headers)).current_open_count
        = some ((df.rows.filter (fun r => isna (getCol r cc))).length)) := by
  have hfind : findColumn df.headers closedAliases = some cc := by
    rw [← lookup_closed_resolveColumns]
    exact hres
  have hmem : cc ∈ df.headers := List.mem_of_find?_eq_some hfind
  have hcont : df.headers.contains cc = true := by
    simpa [List.contains, List.elem_iff] using hmem
  have hopen : (analyze_ticket_statistics df (resolveColumns df.headers)).current_open_count
      = some ((df.rows.filter (fun r => isna (toDatetime (getCol r cc)))).length) := by
    simp [analyze_ticket_statistics, hres]
  refine ⟨?_, ?_, hopen, ?_, ?_⟩
  · unfold closedColumnOf
    rw [hfind]
    rfl
  · intro ot pr h
    unfold analyze_open_tickets_by_priority at h
    rw [if_pos hcont] at h
    rw [Except.ok.injEq, Prod.mk.injEq] at h
    exact h.1.symm
  · intro res today rep h
    unfold generate_output analyze_open_tickets_by_priority at h
    rw [if_pos hcont] at h
    dsimp only [] at h
    rw [Except.ok.injEq] at h
    subst h
    rfl
  · intro hwf
    have hfe : List.filter (fun r => isna (toDatetime (getCol r cc))) df.rows
        = List.filter (fun r => isna (getCol r cc)) df.rows := by
      apply List.filter_congr
      intro r hr
      rcases hwf r hr with hnull | ⟨t, ht⟩
      · rw [hnull]
        rfl
      · rw [ht]
        cases hv : getCol r cc with
        | null =>
          rw [hv] at ht
          cases ht
        | str s => rfl
        | date t2 => rfl
        | num q =>
          rw [hv] at ht
          cases ht
    rw [hopen, hfe]

/-- Witness for C1 (amended) at a concrete table whose closed column
resolves. -/
theorem C1_amended_open_predicates_witness :
    closedColumnOf dfUnparseableClosed = "Closed" :=
  (C1_amended_open_predicates dfUnparseableClosed "Closed" (by decide)).1

/-- Counterexample for C1 as stated: on a table whose sole closed value is a
non-null unparseable string, `analyze_ticket_statistics` counts one open
ticket (null after parsing) while `analyze_open_tickets_by_priority` selects
no open row (the raw value is not null) — the aggregators do not share one
open predicate. -/
theorem C1_counterexample_unparseable_closed :
    (resolveColumns dfUnparseableClosed.headers).lookup "closed" = some "Closed"
  ∧ (analyze_ticket_statistics dfUnparseableClosed
      (resolveColumns dfUnparseableClosed.headers)).current_open_count = some 1
  ∧ analyze_open_tickets_by_priority dfUnparseableClosed "Closed" = .ok ([], none)
  ∧ some (1 : Nat) ≠ some (([] : List Row).length) := by decide

/-- **C2 (amended).** The error policy is two-tier with one exception: a
spreadsheet read failure is caught, reported, and aborts the run; and a
loaded table runs to completion — every missing logical column degrading only
its own section (e.g. the age section reports `not available` when no `Age`
column exists) — PROVIDED the table has a header matching a closed alias or a
literal `State` header.  (Without either, `prepare_data` falls back to the
non-existent `State` column and the open-ticket row selection raises an
uncaught `KeyError`, aborting the remaining sections — see the
counterexample.) -/
theorem C2_amended_two_tier :
    (∀ (e : String) (today : Nat), runAnalysis (.error e) today = .readError e)
  ∧ (∀ (df : DataFrame) (today : Nat),
      ((findColumn df.headers closedAliases).isSome = true ∨
        df.headers.contains "State" = true) →
      ∃ r, runAnalysis (.ok df) today = .completed r)
  ∧ (∀ (df : DataFrame) (today : Nat) (r : Report),
      runAnalysis (.ok df) today = .completed r →
      df.headers.contains "Age" = false → r.byAge = none) := by
  refine ⟨fun e today => rfl, ?_, ?_⟩
  · intro df today h
    have hmem := closed_column_mem df h
    have hmem2 : closedColumnOf df ∈ (prepareFrame df).headers :=
      mem_headers_prepareFrame df _ hmem
    have hcont : (prepareFrame df).headers.contains (closedColumnOf df) = true := by
      simpa [List.contains, List.elem_iff] using hmem2
    obtain ⟨r, hr⟩ := generate_output_ok (prepareFrame df) (closedColumnOf df)
      (analyze_otrs_tickets df) today hcont
    refine ⟨r, ?_⟩
    unfold runAnalysis prepare_data
    dsimp only []
    rw [hr]
  · intro df today r h hAge
    have hA2 : (prepareFrame df).headers.contains "Age" = false :=
      prepareFrame_contains_age_false df hAge
    unfold runAnalysis prepare_data at h
    dsimp only [] at h
    cases hg : generate_output (prepareFrame df) (closedColumnOf df)
        (analyze_otrs_tickets df) today with
    | error e =>
      rw [hg] at h
      cases h
    | ok r2 =>
      rw [hg] at h
      injection h with h
      subst h
      unfold generate_output at hg
      cases hp : analyze_open_tickets_by_priority (prepareFrame df)
          (closedColumnOf df) with
      | error e =>
        rw [hp] at hg
        cases hg
      | ok pr =>
        rw [hp] at hg
        dsimp only [] at hg
        injection hg with hg
        subst hg
        show analyze_open_tickets_by_age (prepareFrame df) pr.1 today = none
        unfold analyze_open_tickets_by_age
        rw [hA2]
        simp

/-- Counterexample for C2 as stated: a table whose headers match no closed
alias and contain no `State` header loads fine, but the run crashes with an
uncaught `KeyError` in the open-by-priority section instead of degrading,
aborting the age section with it. -/
theorem C2_counterexample_missing_state_crash :
    runAnalysis (.ok dfNoStateColumn) 20250101 = .crashed "KeyError: State" := by
  decide

/-- **C7 (amended).** When both the created and closed columns resolve AND at
least one closure value parses, the daily report is the combined table: its
dates are exactly the union of the calendar dates occurring in the two parsed
series (time-of-day discarded), listed ascending without repetition, each row
carrying the multiplicity of its date in each series (hence 0 on a side where
the date does not occur); the spec's example evaluates exactly as stated.
When only the created column resolves, the new counts are produced alone.
(When the closed column resolves but no closure value parses, the code falls
back to the new-only format instead of printing zero closed counts — see the
counterexample.) -/
theorem C7_amended_daily_union :
    (∀ (df : DataFrame) (cc cl : String),
      (resolveColumns df.headers).lookup "created" = some cc →
      (resolveColumns df.headers).lookup "closed" = some cl →
      parsedDates df cl ≠ [] →
      ∃ rows, dailyReport (analyze_ticket_statistics df (resolveColumns df.headers))
          = .combined rows
        ∧ (rows.map Prod.fst).Sorted (· ≤ ·)
        ∧ (rows.map Prod.fst).Nodup
        ∧ (∀ d, d ∈ rows.map Prod.fst ↔
            (d ∈ parsedDates df cc ∨ d ∈ parsedDates df cl))
        ∧ (∀ x ∈ rows, x.2.1 = (parsedDates df cc).count x.1
            ∧ x.2.2 = (parsedDates df cl).count x.1))
  ∧ (∀ (df : DataFrame) (cc : String),
      (resolveColumns df.headers).lookup "created" = some cc →
      (resolveColumns df.headers).lookup "closed" = none →
      ∃ rows, dailyReport (analyze_ticket_statistics df (resolveColumns df.headers))
          = .newOnly rows
        ∧ (rows.map Prod.fst).Sorted (· ≤ ·)
        ∧ (∀ d, d ∈ rows.map Prod.fst ↔ d ∈ parsedDates df cc)
        ∧ (∀ x ∈ rows, x.2 = (parsedDates df cc).count x.1))
  ∧ dailyReport (analyze_ticket_statistics dfDailyExample
      (resolveColumns dfDailyExample.headers))
      = .combined [(20250101, 2, 1), (20250102, 1, 0)] := by
  refine ⟨?_, ?_, by decide⟩
  · intro df cc cl hc hl hne
    have hdn : (analyze_ticket_statistics df (resolveColumns df.headers)).daily_new
        = some (valueCountsByDate (parsedDates df cc)) := by
      simp [analyze_ticket_statistics, hc]
    have hdc : (analyze_ticket_statistics df (resolveColumns df.headers)).daily_closed
        = some (valueCountsByDate (parsedDates df cl)) := by
      simp [analyze_ticket_statistics, hl, List.isEmpty_iff, hne]
    refine ⟨(List.insertionSort (fun a b => a ≤ b)
        (((valueCountsByDate (parsedDates df cc)).map Prod.fst
          ++ (valueCountsByDate (parsedDates df cl)).map Prod.fst).dedup)).map
        (fun d => (d, ((valueCountsByDate (parsedDates df cc)).lookup d).getD 0,
          ((valueCountsByDate (parsedDates df cl)).lookup d).getD 0)),
      ?_, ?_, ?_, ?_, ?_⟩
    · unfold dailyReport
      rw [hdn, hdc]
    · rw [List.map_map]
      have : (Prod.fst ∘ fun d => (d,
          ((valueCountsByDate (parsedDates df cc)).lookup d).getD 0,
          ((valueCountsByDate (parsedDates df cl)).lookup d).getD 0)) = id := rfl
      rw [this, List.map_id]
      exact List.sorted_insertionSort _ _
    · rw [List.map_map]
      have : (Prod.fst ∘ fun d => (d,
          ((valueCountsByDate (parsedDates df cc)).lookup d).getD 0,
          ((valueCountsByDate (parsedDates df cl)).lookup d).getD 0)) = id := rfl
      rw [this, List.map_id]
      exact (List.perm_insertionSort _ _).symm.nodup (List.nodup_dedup _)
    · intro d
      rw [List.map_map]
      have : (Prod.fst ∘ fun d => (d,
          ((valueCountsByDate (parsedDates df cc)).lookup d).getD 0,
          ((valueCountsByDate (parsedDates df cl)).lookup d).getD 0)) = id := rfl
      rw [this, List.map_id, List.mem_insertionSort, List.mem_dedup,
        List.mem_append, mem_keys_valueCountsByDate, mem_keys_valueCountsByDate]
    · intro x hx
      obtain ⟨d, hd, hxd⟩ := List.mem_map.mp hx
      subst hxd
      exact ⟨lookup_valueCountsByDate _ _, lookup_valueCountsByDate _ _⟩
  · intro df cc hc hl
    have hdn : (analyze_ticket_statistics df (resolveColumns df.headers)).daily_new
        = some (valueCountsByDate (parsedDates df cc)) := by
      simp [analyze_ticket_statistics, hc]
    have hdc : (analyze_ticket_statistics df (resolveColumns df.headers)).daily_closed
        = none := by
      simp [analyze_ticket_statistics, hl]
    refine ⟨valueCountsByDate (parsedDates df cc), ?_, ?_, ?_, ?_⟩
    · unfold dailyReport
      rw [hdn, hdc]
    · exact sorted_keys_valueCountsByDate _
    · intro d
      exact mem_keys_valueCountsByDate _ d
    · intro x hx
      unfold valueCountsByDate at hx
      obtain ⟨d, hd, hxd⟩ := List.mem_map.mp hx
      subst hxd
      rfl

/-- Counterexample for C7 as stated: created and closed both resolve, but the
sole closed value is unparseable, so the report is the new-only format — no
combined table with a zero closed count is produced. -/
theorem C7_counterexample_no_parseable_closure :
    (resolveColumns dfDailyUnparseable.headers).lookup "created" = some "Created"
  ∧ (resolveColumns dfDailyUnparseable.headers).lookup "closed" = some "Closed"
  ∧ dailyReport (analyze_ticket_statistics dfDailyUnparseable
      (resolveColumns dfDailyUnparseable.headers)) = .newOnly [(20250101, 1)]
  ∧ (∀ rows, dailyReport (analyze_ticket_statistics dfDailyUnparseable
      (resolveColumns dfDailyUnparseable.headers)) ≠ .combined rows) := by
  have h3 : dailyReport (analyze_ticket_statistics dfDailyUnparseable
      (resolveColumns dfDailyUnparseable.headers)) = .newOnly [(20250101, 1)] := by
    decide
  refine ⟨by decide, by decide, h3, fun rows h => ?_⟩
  rw [h3] at h
  cases h

/-- **C8 (amended).** With a first-response column and a `State` column, the
analyzer reports: the count of rows whose first-response is NaN or the empty
string (before exclusion); the count remaining after excluding rows whose
state, case-insensitively, contains `closed` or `resolved` (so `Closed`,
`closed` and `CLOSED` are excluded identically); their difference as the
excluded count; and a NaN-versus-empty-string breakdown taken over the WHOLE
column — i.e. over the PRE-exclusion set (whose total it splits exactly), not
over the post-exclusion set as the claim states (see the counterexample). -/
theorem C8_amended_firstresponse_counts (df : DataFrame) (fr : String)
    (hfr : df.headers.find? (fun c => hasSub "firstresponse".toList (lowerChars c))
      = some fr)
    (hst : df.headers.contains "State" = true) :
    analyze_firstresponse_empty df = .report fr
        (df.rows.filter (emptyFR fr)).length
        (keptEmptyFR df fr).length
        ((df.rows.filter (emptyFR fr)).length - (keptEmptyFR df fr).length)
        true
        (df.rows.filter (fun r => isna (getCol r fr))).length
        (df.rows.filter (fun r => getCol r fr == Value.str "")).length
        (if df.headers.contains "Priority" then
          some (sortByRank (value_counts
            ((keptEmptyFR df fr).map (fun r => getCol r "Priority"))))
         else none)
  ∧ keptEmptyFR df fr
      = (df.rows.filter (emptyFR fr)).filter (fun r => !(stateClosedResolved r))
  ∧ (keptEmptyFR df fr).length ≤ (df.rows.filter (emptyFR fr)).length
  ∧ (df.rows.filter (emptyFR fr)).length
      = (keptEmptyFR df fr).length
        + ((df.rows.filter (emptyFR fr)).length - (keptEmptyFR df fr).length)
  ∧ (df.rows.filter (fun r => isna (getCol r fr))).length
      + (df.rows.filter (fun r => getCol r fr == Value.str "")).length
      = (df.rows.filter (emptyFR fr)).length
  ∧ stateClosedResolved [("State", Value.str "Closed")] = true
  ∧ stateClosedResolved [("State", Value.str "closed")] = true
  ∧ stateClosedResolved [("State", Value.str "CLOSED")] = true
  ∧ stateClosedResolved [("State", Value.str "open")] = false := by
  have hkept : keptEmptyFR df fr
      = (df.rows.filter (emptyFR fr)).filter (fun r => !(stateClosedResolved r)) := by
    unfold keptEmptyFR
    rw [if_pos hst]
  have hle : (keptEmptyFR df fr).length ≤ (df.rows.filter (emptyFR fr)).length := by
    rw [hkept]
    exact List.length_filter_le _ _
  refine ⟨?_, hkept, hle, by omega, ?_, by decide, by decide, by decide, by decide⟩
  · unfold analyze_firstresponse_empty
    rw [hfr]
    rw [hst]
  · have hdis : ∀ x ∈ df.rows,
        ¬((fun r => isna (getCol r fr)) x = true
          ∧ (fun r => getCol r fr == Value.str "") x = true) := by
      intro x _ hpq
      obtain ⟨hp, hq⟩ := hpq
      dsimp only [] at hp hq
      cases hv : getCol x fr with
      | null =>
        rw [hv] at hq
        cases hq
      | str s =>
        rw [hv] at hp
        cases hp
      | date t =>
        rw [hv] at hp
        cases hp
      | num q =>
        rw [hv] at hp
        cases hp
    exact (length_filter_or_disjoint df.rows _ _ hdis).symm

/-- Witness for C8 (amended) at a concrete table with first-response and
state columns. -/
theorem C8_amended_firstresponse_counts_witness :
    stateClosedResolved [("State", Value.str "CLOSED")] = true :=
  (C8_amended_firstresponse_counts dfFRClosedNaN "FirstResponse"
    (by decide) (by decide)).2.2.2.2.2.2.2.1

/-- Counterexample for C8 as stated: one ticket with NaN first-response and
state `closed` is excluded (post-exclusion set empty), yet the printed NaN
count is 1 — the whole-column figure — where a post-exclusion breakdown would
print 0. -/
theorem C8_counterexample_breakdown_pre_exclusion :
    analyze_firstresponse_empty dfFRClosedNaN
      = .report "FirstResponse" 1 0 1 true 1 0 none
  ∧ ((dfFRClosedNaN.rows.filter (emptyFR "FirstResponse")).filter
      (fun r => !(stateClosedResolved r))).filter
      (fun r => isna (getCol r "FirstResponse")) = []
  ∧ (1 : Nat) ≠ 0 := by decide

/-- **C9 (amended).** Whenever the empty-first-response analyzer produces a
priority breakdown, it is the stable rank sort of the priority frequency
table: ranks are non-decreasing along the printed list (so `1 very high`
precedes `2 high` precedes `3 normal` precedes every unrecognized label,
regardless of frequencies or input order), and the unrecognized labels appear
among themselves in the frequency table's order — descending count — NOT in
original encounter order as the claim states (see the counterexample). -/
theorem C9_amended_priority_rank_order (df : DataFrame) (fr : String)
    (b a e : Nat) (sf : Bool) (n em : Nat) (ps : List (Value × Nat))
    (h : analyze_firstresponse_empty df = .report fr b a e sf n em (some ps)) :
    ps = sortByRank (value_counts
        ((keptEmptyFR df fr).map (fun r => getCol r "Priority")))
  ∧ ps.Sorted rankLe
  ∧ ps.filter is999
      = (value_counts ((keptEmptyFR df fr).map
          (fun r => getCol r "Priority"))).filter is999 := by
  unfold analyze_firstresponse_empty at h
  cases hf : df.headers.find? (fun c => hasSub "firstresponse".toList (lowerChars c)) with
  | none =>
    rw [hf] at h
    cases h
  | some fr2 =>
    rw [hf] at h
    dsimp only [] at h
    rw [FRResult.report.injEq] at h
    obtain ⟨hfr2, hb, ha, he, hsf, hn, hem, hps⟩ := h
    subst hfr2
    by_cases hp : df.headers.contains "Priority" = true
    · rw [if_pos hp, Option.some.injEq] at hps
      refine ⟨hps.symm, ?_, ?_⟩
      · rw [← hps]
        exact List.sorted_insertionSort rankLe _
      · rw [← hps]
        exact filter999_sortByRank _
    · rw [if_neg hp] at hps
      cases hps

/-- Witness for C9 (amended): a mixed table whose breakdown comes out in rank
order with the unrecognized label last. -/
theorem C9_amended_priority_rank_order_witness :
    [(Value.str "1 very high", 1), (Value.str "3 normal", 2), (Value.str "weird", 1)]
      = sortByRank (value_counts ((keptEmptyFR dfPrioMixed "FirstResponse").map
          (fun r => getCol r "Priority"))) :=
  (C9_amended_priority_rank_order dfPrioMixed "FirstResponse" 4 4 0 false 4 0
    [(Value.str "1 very high", 1), (Value.str "3 normal", 2), (Value.str "weird", 1)]
    (by decide)).1

/-- Counterexample for C9 as stated: with only unrecognized priorities
`zebra, apple, apple` (in that encounter order), the printed breakdown is
`apple` before `zebra` — descending frequency from `value_counts` — not the
original encounter order. -/
theorem C9_counterexample_encounter_order :
    analyze_firstresponse_empty dfPrioUnrecognized
      = .report "FirstResponse" 3 3 0 false 3 0
        (some [(Value.str "apple", 2), (Value.str "zebra", 1)])
  ∧ uniqueFirst (dfPrioUnrecognized.rows.map (fun r => getCol r "Priority"))
      = [Value.str "zebra", Value.str "apple"]
  ∧ ([(Value.str "apple", 2), (Value.str "zebra", 1)].map Prod.fst
      ≠ [Value.str "zebra", Value.str "apple"]) := by decide

end Tickets
